import Mathlib

/-!
# Verification of the CTDE-MARL value-decomposition core (traffic-marl-vdn)

Shallow embedding of the multi-agent value-decomposition learning loop of
`traffic-marl-vdn`: the VDN mixer (`agents/vdn_mixer.py`), the centralized
replay buffer (same file), the per-agent DQN state (`agents/dqn_agent.py`),
the coordination mailbox (`agents/communication.py`) and the coordinator
(`agents/multi_agent_system.py`).

Numeric scalars are embedded as rationals (`ℚ`); torch tensors as the
dynamically-ranked nested structure `ND`; Python exceptions as
`Except String`; the external, non-deterministic pieces (network forward
passes of randomly initialized weights, optimizer steps, gradient norms,
`np.random.choice` sampling) as explicit oracle arguments. Network and
optimizer parameter blobs are abstract types `P` and `O`.
-/

set_option linter.unusedVariables false

namespace TrafficMarl

/-- The configuration dict consumed by the core; `none` models an absent
key, read through `dict.get(key, default)`. -/
structure Config where
  learning_rate : Option ℚ := none
  gamma : Option ℚ := none
  epsilon_start : Option ℚ := none
  epsilon_min : Option ℚ := none
  epsilon_decay : Option ℚ := none
  buffer_size : Option Nat := none
  central_buffer_size : Option Nat := none
  batch_size : Option Nat := none
  target_update_freq : Option Nat := none
  enable_communication : Option Bool := none
  deriving DecidableEq

/-- A dynamically-ranked numeric tensor (the shape-relevant fragment of a
torch tensor): a scalar leaf or a list of sub-tensors. -/
inductive ND where
  | s (x : ℚ) : ND
  | a (xs : List ND) : ND

/-- `tensor.shape` as numpy/torch report it: the length of each nesting
level, following the first element (tensors are rectangular). -/
def ndShape : ND → List Nat
  | .s _ => []
  | .a [] => [0]
  | .a (x :: xs) => (xs.length + 1) :: ndShape x

/-- Python sequence indexing that raises `IndexError` out of range. -/
def listGetE (xs : List α) (i : Nat) (msg : String) : Except String α :=
  match xs.get? i with
  | some v => Except.ok v
  | none => Except.error msg

/-- Lookup in a Python dict modelled as an association list. -/
def dictGetE (d : List (String × β)) (k : String) (msg : String) :
    Except String β :=
  match d.find? (fun p => p.1 == k) with
  | some p => Except.ok p.2
  | none => Except.error msg

/-- Python `d[k] = v` on a dict modelled as an association list with at
most one entry per key: an existing key keeps its position and gets the
new value; a new key is appended at the end (insertion order, as Python
dicts preserve it). -/
def dictInsert (d : List (String × β)) (k : String) (v : β) :
    List (String × β) :=
  match d with
  | [] => [(k, v)]
  | p :: rest => if p.1 = k then (k, v) :: rest else p :: dictInsert rest k v

/-- Read a rank-1 tensor of scalars off an `ND` value. -/
def ndVec : ND → Except String (List ℚ)
  | .s _ => Except.error "rank mismatch: expected rank-1 tensor"
  | .a xs => xs.mapM fun nd =>
      match nd with
      | .s x => Except.ok x
      | .a _ => Except.error "rank mismatch: expected scalar entries"

/-- Build a rank-2 tensor from rows of scalars. -/
def nd2 (rows : List (List ℚ)) : ND :=
  ND.a (rows.map fun r => ND.a (r.map ND.s))

/-- `torch.stack(cols, dim=1)` for a list of rank-1 tensors that all have
the same length (torch rejects mismatched shapes; the inputs built by
`train_step` are per-agent vectors over one sampled batch, so they do):
row `b` of the result collects entry `b` of every column. -/
def stackDim1 (cols : List (List ℚ)) : List (List ℚ) :=
  match cols with
  | [] => []
  | c0 :: _ => (List.range c0.length).map fun b => cols.map fun col => col.getD b 0

/-- `q1.unsqueeze(2) + q2.unsqueeze(1)` for one batch element of
`vdn_mixer.py` lines 43-45: the outer-sum table of two rank-1 tensors. -/
def outerSumVec (q1 q2 : List ℚ) : ND :=
  ND.a (q1.map fun x => ND.a (q2.map fun y => ND.s (x + y)))

/-- The mixer object built by `VDNMixer.__init__` (vdn_mixer.py lines 9-16):
it only records its constructor arguments (no learnable parameters). -/
structure VDNMixerS where
  num_agents : Nat
  state_dim : Nat
  config : Config
  deriving DecidableEq

namespace VDNMixer

/-- Embeds `VDNMixer.forward` (vdn_mixer.py lines 18-54).
Reads `agent_qs.shape[0]` and `agent_qs.shape[2]` (lines 33-34), which
raises `IndexError` whenever the input has rank below 3; for
`num_agents == 2` (lines 41-45) it builds the joint outer-sum table
`joint_q[b][a1][a2] = agent_qs[b][0][a1] + agent_qs[b][1][a2]`.
The `num_agents != 2` branch (lines 47-52, an iterative broadcast
expansion whose shapes are inconsistent) is represented by the runtime
error it would raise; the repository constructs exactly two agents
(`multi_agent_system.py` lines 45-48) and no claim instantiates it. -/
def forward (num_agents : Nat) (agent_qs : ND) : Except String ND := do
  let shape := ndShape agent_qs
  let _batch_size ← listGetE shape 0 "IndexError: tuple index out of range"
  let _action_dim ← listGetE shape 2 "IndexError: tuple index out of range"
  if num_agents = 2 then
    match agent_qs with
    | .s _ => Except.error "IndexError: too many indices for tensor"
    | .a batches => do
        let rows ← batches.mapM fun bq => do
          match bq with
          | .s _ => Except.error "IndexError: too many indices for tensor"
          | .a agentRows => do
              let q1nd ← listGetE agentRows 0 "IndexError: index out of range"
              let q2nd ← listGetE agentRows 1 "IndexError: index out of range"
              let q1 ← ndVec q1nd
              let q2 ← ndVec q2nd
              pure (outerSumVec q1 q2)
        pure (ND.a rows)
  else
    Except.error "RuntimeError: broadcast shapes are inconsistent"

/-- Embeds Python call-arity checking for `VDNMixer.__init__(self,
num_agents, state_dim, config)` (vdn_mixer.py line 9): an argument the
caller did not supply is `none`, and a missing required positional
argument raises `TypeError`. -/
def construct (num_agents : Option Nat) (state_dim : Option Nat)
    (config : Option Config) : Except String VDNMixerS :=
  match num_agents, state_dim, config with
  | some n, some s, some c => Except.ok ⟨n, s, c⟩
  | _, _, _ =>
      Except.error
        "TypeError: __init__() missing 2 required positional arguments: state_dim and config"

end VDNMixer

/-- A mixer input of shape `[1, 2]`: one batch row holding each agent's
chosen-action Q-value, as `train_step` stacks them (multi_agent_system.py
line 180). -/
def chosenPair (x y : ℚ) : ND := ND.a [ND.a [ND.s x, ND.s y]]

namespace CentralizedBuffer

/-- Embeds `CentralizedBuffer.add` (vdn_mixer.py lines 71-75): when the
buffer is at (or above) capacity, `pop(0)` evicts the oldest entry before
appending; `pop(0)` on an empty list raises `IndexError` (reachable only
with `capacity = 0`). -/
def add (capacity : Nat) (buffer : List α) (experience : α) :
    Except String (List α) :=
  if capacity ≤ buffer.length then
    match buffer with
    | [] => Except.error "IndexError: pop from empty list"
    | _ :: rest => Except.ok (rest ++ [experience])
  else Except.ok (buffer ++ [experience])

/-- Insert a whole sequence of experiences into an initially empty buffer. -/
def addAll (capacity : Nat) (xs : List α) : Except String (List α) :=
  xs.foldlM (fun buf e => add capacity buf e) []

/-- Embeds `CentralizedBuffer.__len__` (vdn_mixer.py lines 92-93). -/
def len (buffer : List α) : Nat := buffer.length

/-- Embeds the indexing part of `CentralizedBuffer.sample` (vdn_mixer.py
lines 77-90): the `np.random.choice` draw is an explicit index-list
oracle; the batch is the buffer entries at those indices. -/
def sample (buffer : List α) (indices : List Nat) : Except String (List α) :=
  indices.mapM fun i => listGetE buffer i "IndexError: index out of range"

end CentralizedBuffer

/-- A per-agent experience tuple (dqn_agent.py lines 9-10). -/
structure Experience where
  state : List ℚ
  action : Nat
  reward : ℚ
  next_state : List ℚ
  done : Bool
  deriving DecidableEq

/-- The mutable state a `DQNAgent` owns (dqn_agent.py lines 15-41):
network and optimizer parameter blobs are abstract (`P`, `O`). -/
structure DQNAgentState (P O : Type) where
  agent_id : String
  state_dim : Nat
  action_dim : Nat
  q_network : P
  target_network : P
  optimizer : O
  memory : List Experience
  gamma : ℚ
  epsilon : ℚ
  epsilon_min : ℚ
  epsilon_decay : ℚ
  batch_size : Nat
  target_update_freq : Nat
  training_step : Nat
  deriving DecidableEq

/-- The checkpoint dict written by `DQNAgent.save` and read by
`DQNAgent.load` (dqn_agent.py lines 120-137). -/
structure Checkpoint (P O : Type) where
  q_network_state_dict : P
  target_network_state_dict : P
  optimizer_state_dict : O
  epsilon : ℚ
  training_step : Nat
  deriving DecidableEq

namespace DQNAgent

/-- Embeds `DQNAgent.__init__` (dqn_agent.py lines 15-41): the freshly
initialized online parameters are an oracle argument `initNet`, and line
25 copies them into the target network; numeric defaults come from
`config.get`. -/
def construct {P O : Type} (state_dim action_dim : Nat) (agent_id : String)
    (config : Config) (initNet : P) (initOpt : O) : DQNAgentState P O where
  agent_id := agent_id
  state_dim := state_dim
  action_dim := action_dim
  q_network := initNet
  target_network := initNet
  optimizer := initOpt
  memory := []
  gamma := config.gamma.getD (99 / 100)
  epsilon := config.epsilon_start.getD 1
  epsilon_min := config.epsilon_min.getD (1 / 100)
  epsilon_decay := config.epsilon_decay.getD (199 / 200)
  batch_size := config.batch_size.getD 32
  target_update_freq := config.target_update_freq.getD 10
  training_step := 0

/-- Embeds `DQNAgent.save` (dqn_agent.py lines 120-128). -/
def save {P O : Type} (agent : DQNAgentState P O) : Checkpoint P O :=
  ⟨agent.q_network, agent.target_network, agent.optimizer,
    agent.epsilon, agent.training_step⟩

/-- Embeds `DQNAgent.load` (dqn_agent.py lines 130-137): overwrites both
parameter sets, the optimizer state, epsilon and the step counter. -/
def load {P O : Type} (agent : DQNAgentState P O) (ck : Checkpoint P O) :
    DQNAgentState P O :=
  { agent with
    q_network := ck.q_network_state_dict
    target_network := ck.target_network_state_dict
    optimizer := ck.optimizer_state_dict
    epsilon := ck.epsilon
    training_step := ck.training_step }

end DQNAgent

/-- One epsilon decay, as written identically at dqn_agent.py line 104 and
multi_agent_system.py line 226: `max(epsilon_min, epsilon * epsilon_decay)`. -/
def decayEpsilon (epsilon_min epsilon_decay epsilon : ℚ) : ℚ :=
  max epsilon_min (epsilon * epsilon_decay)

/-- The epsilon value after `n` training steps that each applied the decay
of dqn_agent.py line 104 / multi_agent_system.py line 226. -/
def epsTraj (epsilon_min epsilon_decay epsilon_start : ℚ) : Nat → ℚ
  | 0 => epsilon_start
  | n + 1 => decayEpsilon epsilon_min epsilon_decay
      (epsTraj epsilon_min epsilon_decay epsilon_start n)

/-! ## Communication (agents/communication.py) -/

/-- The payload dict (`state_info`) a sender attaches to a message; all
keys the core ever reads are optional, matching `payload.get(key, default)`
reads. -/
structure MsgData where
  queue : Option (List ℚ) := none
  current_phase : Option ℚ := none
  intended_action : Option ℚ := none
  full_state : Option (List ℚ) := none
  timestamp : Option ℚ := none
  deriving DecidableEq

/-- A wire message as built by `send_state` / `send_prediction` /
`send_emergency` (communication.py lines 43-75): `sender`, `timestamp` and
`data` are always set by the senders; `type` is read back with
`message.get("type", "unknown")`, so it is optional. -/
structure Message where
  sender : String
  timestamp : ℚ
  data : MsgData
  type : Option String
  deriving DecidableEq

/-- What `_receive_loop` stores per sender (communication.py lines 90-96). -/
structure StoredMessage where
  data : MsgData
  timestamp : ℚ
  type : String
  deriving DecidableEq

/-- The mutable state of one `AgentCommunication` endpoint
(communication.py lines 11-41): the mutex-protected mailbox keyed by
sender id. Sockets and the receiver thread are not part of the state the
claims concern. -/
structure CommState where
  agent_id : String
  neighbor_ids : List String
  received_messages : List (String × StoredMessage)
  deriving DecidableEq

namespace AgentCommunication

/-- Embeds `AgentCommunication.__init__` (communication.py lines 11-41):
the mailbox starts empty. -/
def construct (agent_id : String) (neighbor_ids : List String) : CommState :=
  ⟨agent_id, neighbor_ids, []⟩

/-- Embeds `send_state` (communication.py lines 43-52): wraps the payload
with sender id, wall-clock timestamp (an oracle argument `now`) and the
`state_update` tag. -/
def send_state (agent_id : String) (now : ℚ) (state_info : MsgData) : Message :=
  ⟨agent_id, now, state_info, some "state_update"⟩

/-- Embeds the mailbox write of `_receive_loop` (communication.py lines
90-96): store `{data, timestamp, type}` keyed by sender, overwriting any
previous message from the same sender. -/
def receiveMessage (c : CommState) (m : Message) : CommState :=
  let stored : StoredMessage := ⟨m.data, m.timestamp, m.type.getD "unknown"⟩
  { c with received_messages := dictInsert c.received_messages m.sender stored }

/-- Embeds `get_neighbor_messages` (communication.py lines 103-109): copy
the mailbox, clear it, return the copy. -/
def get_neighbor_messages (c : CommState) :
    List (String × StoredMessage) × CommState :=
  (c.received_messages, { c with received_messages := [] })

end AgentCommunication

/-! ## Coordinator (agents/multi_agent_system.py) -/

/-- One joint transition held by the centralized buffer:
`(states, joint_actions, reward, next_states, done)` with one row per
agent (multi_agent_system.py lines 163-167, vdn_mixer.py line 72). -/
structure Transition where
  states : List (List ℚ)
  actions : List Nat
  reward : ℚ
  next_states : List (List ℚ)
  done : Bool
  deriving DecidableEq

/-- The state of a constructed `MultiAgentSystem`
(multi_agent_system.py lines 18-61). -/
structure MultiAgentSystemState (P O : Type) where
  agent_ids : List String
  state_dim : Nat
  action_dim : Nat
  config : Config
  agents : List (String × DQNAgentState P O)
  mixer : VDNMixerS
  target_update_freq : Nat
  central_buffer_capacity : Nat
  central_buffer : List Transition
  communication_enabled : Bool
  communications : List (String × CommState)
  previous_actions : List (String × Nat)
  training_step : Nat
  deriving DecidableEq

/-- The abstract effect of the torch/numpy runtime on the opaque parameter
blobs: a network forward pass (the Q-vector a parameter blob assigns to an
observation), the optimizer step applied to each agent at one training
step, and each agent's clipped-gradient norm contribution. -/
structure TorchOracle (P O : Type) where
  eval : P → List ℚ → List ℚ
  gradStep : String → P → P
  optStep : String → O → O
  gradNormContribution : String → ℚ

/-- `nn.MSELoss()` with its default mean reduction (dqn_agent.py line 95,
multi_agent_system.py line 199). -/
def mseLoss (pred target : List ℚ) : ℚ :=
  (List.zipWith (fun a b => (a - b) ^ 2) pred target).sum / (pred.length : ℚ)

namespace MultiAgentSystem

/-- The hard-coded neighbor dict (multi_agent_system.py lines 45-48), read
through `dict.get(agent_id, [])`. -/
def neighbor_map (agent_id : String) : List String :=
  if agent_id = "J1_center" then ["J2_center"]
  else if agent_id = "J2_center" then ["J1_center"]
  else []

/-- Embeds `MultiAgentSystem.__init__` (multi_agent_system.py lines
18-61). Line 31 calls `VDNMixer(self.num_agents)` with a single
positional argument although `VDNMixer.__init__` requires
`(num_agents, state_dim, config)`, so construction raises `TypeError`
before the buffer and the communication endpoints are set up. -/
def construct {P O : Type} (initNet : String → P) (initOpt : String → O)
    (agent_ids : List String) (state_dim action_dim : Nat) (config : Config) :
    Except String (MultiAgentSystemState P O) := do
  let agents := agent_ids.map fun agent_id =>
    (agent_id,
      DQNAgent.construct state_dim action_dim agent_id config
        (initNet agent_id) (initOpt agent_id))
  let mixer ← VDNMixer.construct (some agent_ids.length) none none
  let communications := agent_ids.map fun agent_id =>
    (agent_id, AgentCommunication.construct agent_id (neighbor_map agent_id))
  Except.ok
    { agent_ids := agent_ids
      state_dim := state_dim
      action_dim := action_dim
      config := config
      agents := agents
      mixer := mixer
      target_update_freq := config.target_update_freq.getD 10
      central_buffer_capacity := config.central_buffer_size.getD 10000
      central_buffer := []
      communication_enabled := config.enable_communication.getD true
      communications := communications
      previous_actions := agent_ids.map fun agent_id => (agent_id, 0)
      training_step := 0 }

/-- Embeds `MultiAgentSystem.train_step` (multi_agent_system.py lines
152-228). Returns the `(0, 0)` sentinel without touching any state when
the buffer holds fewer than `batch_size` transitions (lines 154-155);
otherwise samples a batch (the `np.random.choice` indices are the
`sampleIndices` oracle), gathers each agent's chosen-action Q-value,
stacks them into a rank-2 `[batch, num_agents]` tensor (line 180) and
hands it to the mixer (line 181); the remaining steps (bootstrapped
target, MSE loss, per-agent optimizer steps, periodic target sync,
epsilon decay) follow lines 184-228. -/
def train_step {P O : Type} (torch : TorchOracle P O)
    (sys : MultiAgentSystemState P O) (sampleIndices : List Nat)
    (batch_size : Nat) : Except String ((ℚ × ℚ) × MultiAgentSystemState P O) := do
  if CentralizedBuffer.len sys.central_buffer < batch_size then
    pure ((0, 0), sys)
  else do
    let batch ← CentralizedBuffer.sample sys.central_buffer sampleIndices
    let firstId ← listGetE sys.agent_ids 0 "IndexError: list index out of range"
    let firstAgent ← dictGetE sys.agents firstId "KeyError"
    let selected_qs ← sys.agent_ids.enum.mapM fun p => do
      let i := p.1
      let agent ← dictGetE sys.agents p.2 "KeyError"
      batch.mapM fun tr => do
        let agent_state ← listGetE tr.states i "IndexError: index out of range"
        let action ← listGetE tr.actions i "IndexError: index out of range"
        let q := torch.eval agent.q_network agent_state
        listGetE q action "RuntimeError: gather index out of range"
    let selected_qs_tensor := nd2 (stackDim1 selected_qs)
    let q_tot ← VDNMixer.forward sys.mixer.num_agents selected_qs_tensor
    let target_qs ← sys.agent_ids.enum.mapM fun p => do
      let i := p.1
      let agent ← dictGetE sys.agents p.2 "KeyError"
      batch.mapM fun tr => do
        let next_state ← listGetE tr.next_states i "IndexError: index out of range"
        let q := torch.eval agent.target_network next_state
        match q.max? with
        | some m => pure m
        | none => Except.error "RuntimeError: max of empty tensor"
    let target_qs_tensor := nd2 (stackDim1 target_qs)
    let target_q_tot ← VDNMixer.forward sys.mixer.num_agents target_qs_tensor
    let tq ← ndVec target_q_tot
    let target := List.zipWith
      (fun (rd : ℚ × ℚ) tqv => rd.1 + (1 - rd.2) * firstAgent.gamma * tqv)
      (batch.map fun tr => (tr.reward, if tr.done then (1 : ℚ) else 0)) tq
    let qv ← ndVec q_tot
    let loss := mseLoss qv target
    let agents1 := sys.agents.map fun p =>
      (p.1, { p.2 with
                q_network := torch.gradStep p.1 p.2.q_network
                optimizer := torch.optStep p.1 p.2.optimizer })
    let total_norm := (sys.agents.map fun p => torch.gradNormContribution p.1).sum
    let step1 := sys.training_step + 1
    let agents2 :=
      if step1 % sys.target_update_freq = 0 then
        agents1.map fun p => (p.1, { p.2 with target_network := p.2.q_network })
      else agents1
    let agents3 :=
      if 0 < batch_size then
        agents2.map fun p =>
          (p.1, { p.2 with
                    epsilon := decayEpsilon p.2.epsilon_min p.2.epsilon_decay p.2.epsilon })
      else agents2
    pure ((loss, total_norm), { sys with agents := agents3, training_step := step1 })

/-- The per-agent model file path used by `save_models` / `load_models`
(multi_agent_system.py lines 237 and 243). -/
def modelPath (path agent_id : String) : String :=
  path ++ "/" ++ agent_id ++ "_model.pth"

/-- The loop body of `MultiAgentSystem.load_models` (multi_agent_system.py
lines 239-253) over the agent dict: the filesystem is modelled as a map
from paths to the checkpoints stored there (`none` = file missing).
Agents whose file exists are loaded in place as the loop reaches them;
the first missing file returns `False` immediately, leaving the remaining
agents untouched. -/
def load_models_go {P O : Type} (path : String)
    (fs : String → Option (Checkpoint P O)) :
    List (String × DQNAgentState P O) →
      Bool × List (String × DQNAgentState P O)
  | [] => (true, [])
  | p :: rest =>
    match fs (modelPath path p.1) with
    | some ck =>
        let r := load_models_go path fs rest
        (r.1, (p.1, DQNAgent.load p.2 ck) :: r.2)
    | none => (false, p :: rest)

/-- Embeds `MultiAgentSystem.load_models` (multi_agent_system.py lines
239-253): the returned flag plus the post-call system state. -/
def load_models {P O : Type} (sys : MultiAgentSystemState P O) (path : String)
    (fs : String → Option (Checkpoint P O)) :
    Bool × MultiAgentSystemState P O :=
  let r := load_models_go path fs sys.agents
  (r.1, { sys with agents := r.2 })

/-- What one agent entry becomes when its file is present: the agent
loaded from its checkpoint; otherwise unchanged. Used to state what
`load_models` actually does on a partially populated directory. -/
def loadFromFile {P O : Type} (path : String)
    (fs : String → Option (Checkpoint P O))
    (p : String × DQNAgentState P O) : String × DQNAgentState P O :=
  match fs (modelPath path p.1) with
  | some ck => (p.1, DQNAgent.load p.2 ck)
  | none => p

/-- Embeds `MultiAgentSystem.get_enhanced_state` (multi_agent_system.py
lines 255-289) over the agent's communication endpoint: drain the
mailbox, collect `queue ++ [current_phase, intended_action]` per neighbor
message that carries a `queue` field, pad with zeros to at least 10,
truncate to exactly 10, and append after the base observation. Returns
the enhanced observation and the endpoint state after the drain. -/
def get_enhanced_state (base_state : List ℚ) (comm : CommState) :
    List ℚ × CommState :=
  let drained := AgentCommunication.get_neighbor_messages comm
  let neighbor_info := drained.1.foldl
    (fun acc p =>
      match p.2.data.queue with
      | some q =>
          acc ++ q ++ [p.2.data.current_phase.getD 0, p.2.data.intended_action.getD 0]
      | none => acc) []
  let padded := neighbor_info ++ List.replicate (10 - neighbor_info.length) 0
  let neighbor_features := padded.take 10
  (base_state ++ neighbor_features, drained.2)

end MultiAgentSystem

/-! ## Target-network sync state machine

The facts claimed about target-network cadence concern the interaction of
three lines of `train_step` (multi_agent_system.py lines 219-222: counter
increment, modulus test, hard copy) with the per-agent gradient updates
(lines 202-216), which touch only online parameters. `trainNetStep`
isolates exactly that interaction; the per-step gradient effect is an
arbitrary function `upd` of the step index and the agent id. -/

/-- One agent's two parameter sets. -/
structure AgentNets (P : Type) where
  online : P
  target : P
  deriving DecidableEq

/-- Online/target parameters of every agent plus the shared step counter. -/
structure SyncState (P : Type) where
  nets : List (String × AgentNets P)
  training_step : Nat
  deriving DecidableEq

/-- One completed training step: every agent's online parameters move by
the (arbitrary) gradient update `upd`; the counter increments; when the
new count is a multiple of `freq`, every agent's target parameters become
a verbatim copy of its online parameters (multi_agent_system.py lines
202-222, dqn_agent.py lines 97-109). -/
def trainNetStep {P : Type} (freq : Nat) (upd : Nat → String → P → P)
    (st : SyncState P) : SyncState P :=
  let nets1 := st.nets.map fun p =>
    (p.1, { p.2 with online := upd st.training_step p.1 p.2.online })
  let step1 := st.training_step + 1
  let nets2 :=
    if step1 % freq = 0 then
      nets1.map fun p => (p.1, ⟨p.2.online, p.2.online⟩)
    else nets1
  ⟨nets2, step1⟩

/-- The sync state after `n` completed training steps. -/
def runTraining {P : Type} (freq : Nat) (upd : Nat → String → P → P)
    (st : SyncState P) : Nat → SyncState P
  | 0 => st
  | n + 1 => trainNetStep freq upd (runTraining freq upd st n)

/-! ## Sanity checks (concrete evaluations of the embedding) -/

example : ndShape (chosenPair 1 2) = [1, 2] := rfl

example : VDNMixer.forward 2 (chosenPair 1 2) =
    Except.error "IndexError: tuple index out of range" := rfl

example :
    VDNMixer.forward 2 (ND.a [ND.a [ND.a [ND.s 1, ND.s 2], ND.a [ND.s 10, ND.s 20]]]) =
    Except.ok (ND.a [ND.a [ND.a [ND.s (1 + 10), ND.s (1 + 20)],
      ND.a [ND.s (2 + 10), ND.s (2 + 20)]]]) := rfl

example : CentralizedBuffer.addAll 2 [1, 2, 3, 4] = Except.ok [3, 4] := rfl

example :
    (MultiAgentSystem.get_enhanced_state [1, 2, 3]
      (AgentCommunication.construct "J1_center" ["J2_center"])).1.length = 3 + 10 := rfl


/-! ## Concrete scenario states -/

/-- A concrete torch oracle: an (untrained) network assigns Q-value `0` to
each of the 5 actions; gradient and optimizer effects are identity. -/
def zeroTorch : TorchOracle Unit Unit :=
  ⟨fun _ _ => List.replicate 5 0, fun _ p => p, fun _ o => o, fun _ => 0⟩

/-- The configuration of the end-to-end scenario: `gamma = 0.99`, defaults
elsewhere. -/
def cfgC2 : Config := { gamma := some (99 / 100) }

/-- A freshly constructed scenario agent over 23-dimensional observations
and 5 actions. -/
def agentC2 (agent_id : String) : DQNAgentState Unit Unit :=
  DQNAgent.construct 23 5 agent_id cfgC2 () ()

/-- The scenario transition: per-agent observation of 23 zeros, joint
action `[0, 0]`, team reward `-1.0`, same next observation, not done. -/
def trC2 : Transition :=
  ⟨[List.replicate 23 0, List.replicate 23 0], [0, 0], -1,
    [List.replicate 23 0, List.replicate 23 0], false⟩

/-- The end-to-end scenario system: two agents, `action_dim = 5`,
`gamma = 0.99`, centralized buffer pre-loaded with 40 identical
transitions (as a hypothetical post-construction state: building it
through `MultiAgentSystem.construct` is impossible, see claim C3). -/
def sysC2 : MultiAgentSystemState Unit Unit where
  agent_ids := ["J1_center", "J2_center"]
  state_dim := 23
  action_dim := 5
  config := cfgC2
  agents := [("J1_center", agentC2 "J1_center"), ("J2_center", agentC2 "J2_center")]
  mixer := ⟨2, 23, cfgC2⟩
  target_update_freq := 10
  central_buffer_capacity := 10000
  central_buffer := List.replicate 40 trC2
  communication_enabled := true
  communications :=
    [("J1_center", AgentCommunication.construct "J1_center" ["J2_center"]),
     ("J2_center", AgentCommunication.construct "J2_center" ["J1_center"])]
  previous_actions := [("J1_center", 0), ("J2_center", 0)]
  training_step := 0

/-! ## Claim theorems -/

/-- Claim C1: the spec says `VDNMixer.forward`, fed the matrix of each
agent's chosen-action Q-value (shape `[batch, num_agents]`), returns the
per-batch sums (shape `[batch]`). The code instead reads
`agent_qs.shape[2]` and builds a joint action table, so on every stacked
chosen-value matrix — the very tensor `train_step` passes at line 181 —
it raises `IndexError` rather than returning anything. -/
theorem C1_forward_raises_on_chosen_value_matrix (qs : List (List ℚ)) :
    VDNMixer.forward 2 (nd2 qs) =
      Except.error "IndexError: tuple index out of range" := by
  match qs with
  | [] => rfl
  | [] :: rs => rfl
  | (x :: r) :: rs => rfl

/-- Claim C2: in the end-to-end scenario (two agents, `action_dim = 5`,
`gamma = 0.99`, 40 identical buffered transitions, `batch_size = 32`) the
spec requires `trainStep(32)` to return a finite non-negative loss without
raising. The code instead raises: the stacked chosen-value tensor has
shape `[32, 2]` and the mixer's `agent_qs.shape[2]` read fails. The
buffer is 40 long going in (and the raise happens before any mutation). -/
theorem C2_train_step_raises :
    MultiAgentSystem.train_step zeroTorch sysC2 (List.range 32) 32 =
      Except.error "IndexError: tuple index out of range" ∧
    CentralizedBuffer.len sysC2.central_buffer = 40 :=
  ⟨rfl, rfl⟩

/-- Claim C3: for every agent-id list, state_dim, action_dim and
configuration, constructing a `MultiAgentSystem` raises `TypeError`:
line 31 instantiates the mixer as `VDNMixer(self.num_agents)` with one
positional argument while `VDNMixer.__init__` requires three. -/
theorem C3_construction_always_raises_TypeError {P O : Type}
    (initNet : String → P) (initOpt : String → O) (agent_ids : List String)
    (state_dim action_dim : Nat) (config : Config) :
    MultiAgentSystem.construct (P := P) (O := O) initNet initOpt agent_ids
        state_dim action_dim config =
      Except.error
        "TypeError: __init__() missing 2 required positional arguments: state_dim and config" :=
  rfl


/-! ## Claim C4: load_models on a partially populated directory -/

/-- A fresh agent over `Nat`-coded parameter blobs (online, target and
optimizer blobs all `0`), default configuration. -/
def agentC4 (agent_id : String) : DQNAgentState Nat Nat :=
  DQNAgent.construct 23 5 agent_id {} 0 0

/-- A models directory holding a checkpoint for `J1_center` only;
`J2_center`'s file is missing. -/
def fsC4 : String → Option (Checkpoint Nat Nat) := fun p =>
  if p = "models/J1_center_model.pth" then some ⟨7, 8, 9, 1 / 2, 5⟩ else none

/-- A two-agent system in its freshly constructed state (hypothetical
post-construction state, cf. claim C3), used to observe what
`load_models` mutates. -/
def sysC4 : MultiAgentSystemState Nat Nat where
  agent_ids := ["J1_center", "J2_center"]
  state_dim := 23
  action_dim := 5
  config := {}
  agents := [("J1_center", agentC4 "J1_center"), ("J2_center", agentC4 "J2_center")]
  mixer := ⟨2, 23, {}⟩
  target_update_freq := 10
  central_buffer_capacity := 10000
  central_buffer := []
  communication_enabled := true
  communications :=
    [("J1_center", AgentCommunication.construct "J1_center" ["J2_center"]),
     ("J2_center", AgentCommunication.construct "J2_center" ["J1_center"])]
  previous_actions := [("J1_center", 0), ("J2_center", 0)]
  training_step := 0

/-- What the `load_models` loop computes when the agent list splits into a
prefix whose files all exist, a first agent with a missing file, and a
remainder: the flag is `False`, the prefix is loaded, the rest untouched. -/
theorem load_models_go_spec {P O : Type} (path : String)
    (fs : String → Option (Checkpoint P O))
    (pre : List (String × DQNAgentState P O))
    (missing : String × DQNAgentState P O)
    (post : List (String × DQNAgentState P O))
    (hpre : ∀ p ∈ pre, (fs (MultiAgentSystem.modelPath path p.1)).isSome = true)
    (hmiss : fs (MultiAgentSystem.modelPath path missing.1) = none) :
    MultiAgentSystem.load_models_go path fs (pre ++ missing :: post) =
      (false, pre.map (MultiAgentSystem.loadFromFile path fs) ++ missing :: post) := by
  induction pre with
  | nil =>
      simp [MultiAgentSystem.load_models_go, hmiss]
  | cons a pre ih =>
      have ha : (fs (MultiAgentSystem.modelPath path a.1)).isSome = true :=
        hpre a (by simp)
      obtain ⟨ck, hck⟩ := Option.isSome_iff_exists.mp ha
      have ih2 := ih fun p hp => hpre p (by simp [hp])
      simp [MultiAgentSystem.load_models_go, hck, ih2, MultiAgentSystem.loadFromFile]

/-- Claim C4 counterexample: on a directory where `J1_center`'s file
exists and `J2_center`'s is missing, `load_models` does return `False`,
but `J1_center`'s online parameters HAVE been overwritten from its
checkpoint (`0` became `7`), so the load is not all-or-nothing. -/
theorem C4_counterexample :
    (MultiAgentSystem.load_models sysC4 "models" fsC4).1 = false ∧
    (MultiAgentSystem.load_models sysC4 "models" fsC4).2.agents.map
        (fun p => p.2.q_network) = [7, 0] ∧
    sysC4.agents.map (fun p => p.2.q_network) = [0, 0] :=
  ⟨rfl, rfl, rfl⟩

/-- Claim C4 (amended): whenever some agent's file is missing,
`load_models` returns `False`; agents iterated before the first missing
file are loaded from their checkpoints, and agents from the first missing
file onward keep their pre-call state (so the load is NOT all-or-nothing:
only the suffix starting at the first missing file is protected). -/
theorem C4_load_models_partial {P O : Type} (path : String)
    (fs : String → Option (Checkpoint P O)) (sys : MultiAgentSystemState P O)
    (pre : List (String × DQNAgentState P O))
    (missing : String × DQNAgentState P O)
    (post : List (String × DQNAgentState P O))
    (hagents : sys.agents = pre ++ missing :: post)
    (hpre : ∀ p ∈ pre, (fs (MultiAgentSystem.modelPath path p.1)).isSome = true)
    (hmiss : fs (MultiAgentSystem.modelPath path missing.1) = none) :
    (MultiAgentSystem.load_models sys path fs).1 = false ∧
    (MultiAgentSystem.load_models sys path fs).2.agents =
      pre.map (MultiAgentSystem.loadFromFile path fs) ++ missing :: post := by
  have h := load_models_go_spec path fs pre missing post hpre hmiss
  exact ⟨by simp [MultiAgentSystem.load_models, hagents, h],
    by simp [MultiAgentSystem.load_models, hagents, h]⟩

/-- Witness for the amended C4 theorem at the concrete two-agent system. -/
theorem C4_load_models_partial_witness :
    (sysC4.agents =
      [("J1_center", agentC4 "J1_center")] ++ ("J2_center", agentC4 "J2_center") :: []) ∧
    (∀ p ∈ [("J1_center", agentC4 "J1_center")],
      (fsC4 (MultiAgentSystem.modelPath "models" p.1)).isSome = true) ∧
    fsC4 (MultiAgentSystem.modelPath "models" "J2_center") = none ∧
    ((MultiAgentSystem.load_models sysC4 "models" fsC4).1 = false ∧
      (MultiAgentSystem.load_models sysC4 "models" fsC4).2.agents =
        [("J1_center", agentC4 "J1_center")].map
            (MultiAgentSystem.loadFromFile "models" fsC4) ++
          ("J2_center", agentC4 "J2_center") :: []) :=
  ⟨rfl, by decide, rfl,
    C4_load_models_partial "models" fsC4 sysC4
      [("J1_center", agentC4 "J1_center")] ("J2_center", agentC4 "J2_center") []
      rfl (by decide) rfl⟩

/-! ## Claim C5: replay buffer capacity bound -/

/-- For positive capacity, filling an initially empty buffer through
`add` always succeeds and keeps exactly the most recent `capacity`
entries in insertion order. Helper for C5. -/
theorem addAll_eq_drop {α : Type} (c : Nat) (hc : 0 < c) (xs : List α) :
    CentralizedBuffer.addAll c xs = Except.ok (xs.drop (xs.length - c)) := by
  induction xs using List.reverseRecOn with
  | nil => simp [CentralizedBuffer.addAll, pure, Except.pure]
  | append_singleton xs e ih =>
      have hstep : CentralizedBuffer.addAll c (xs ++ [e]) =
          CentralizedBuffer.addAll c xs >>= fun buf =>
            CentralizedBuffer.add c buf e := by
        simp [CentralizedBuffer.addAll, List.foldlM_append]
      rw [hstep, ih]
      show CentralizedBuffer.add c (xs.drop (xs.length - c)) e = _
      rcases Nat.lt_or_ge xs.length c with hlt | hge
      · have h0 : xs.length - c = 0 := by omega
        have h1 : (xs ++ [e]).length - c = 0 := by
          simp only [List.length_append, List.length_singleton]; omega
        rw [h0, h1, List.drop_zero, List.drop_zero, CentralizedBuffer.add.eq_def,
          if_neg (show ¬ c ≤ xs.length by omega)]
      · have hlen : (xs.drop (xs.length - c)).length = c := by
          rw [List.length_drop]; omega
        obtain ⟨h, t, hcons⟩ : ∃ h t, xs.drop (xs.length - c) = h :: t := by
          cases hx : xs.drop (xs.length - c) with
          | nil => rw [hx] at hlen; simp at hlen; omega
          | cons h t => exact ⟨h, t, rfl⟩
        rw [CentralizedBuffer.add.eq_def,
          if_pos (show c ≤ (xs.drop (xs.length - c)).length by omega), hcons]
        have ht : t = xs.drop (xs.length - c + 1) := by
          have := congrArg List.tail hcons
          simpa [List.tail_drop] using this.symm
        have harith : (xs ++ [e]).length - c = xs.length - c + 1 := by
          simp only [List.length_append, List.length_singleton]; omega
        rw [harith, List.drop_append_of_le_length (by omega), ht]

/-- Claim C5: for every capacity `c > 0` and every sequence of more than
`c` insertions into an initially empty `CentralizedBuffer`, afterwards
`len(buffer) = c` and the buffer holds exactly the most recently inserted
`c` transitions in insertion order (oldest evicted first). -/
theorem C5_capacity_bound {α : Type} (c : Nat) (hc : 0 < c) (xs : List α)
    (hN : c < xs.length) :
    CentralizedBuffer.addAll c xs = Except.ok (xs.drop (xs.length - c)) ∧
    CentralizedBuffer.len (xs.drop (xs.length - c)) = c := by
  refine ⟨addAll_eq_drop c hc xs, ?_⟩
  rw [CentralizedBuffer.len, List.length_drop]
  omega

/-- Witness for C5 at capacity 2 and three insertions. -/
theorem C5_capacity_bound_witness :
    (0 < 2 ∧ 2 < [10, 20, 30].length) ∧
    (CentralizedBuffer.addAll 2 [10, 20, 30] =
        Except.ok (([10, 20, 30] : List Nat).drop ([10, 20, 30].length - 2)) ∧
      CentralizedBuffer.len (([10, 20, 30] : List Nat).drop ([10, 20, 30].length - 2)) = 2) :=
  ⟨⟨by decide, by decide⟩, C5_capacity_bound 2 (by decide) [10, 20, 30] (by decide)⟩


/-! ## Claim C6: epsilon decay -/

/-- The decay floor: from the very first step on, `max(epsilon_min, ...)`
keeps epsilon at or above `epsilon_min` (given it starts there). -/
theorem epsTraj_ge_min (eps_min eps_decay eps_start : ℚ)
    (h1 : eps_min ≤ eps_start) :
    ∀ n, eps_min ≤ epsTraj eps_min eps_decay eps_start n
  | 0 => h1
  | n + 1 => le_max_left _ _

/-- Claim C6 counterexample: under the claim's stated provisos
(`epsilon_start ≥ epsilon_min`, `0 < epsilon_decay ≤ 1`) epsilon can
INCREASE across a training step: with `epsilon_min = -3`,
`epsilon_start = -2`, `epsilon_decay = 1/2`, one decay yields
`max(-3, -2 * 1/2) = -1 > -2`. -/
theorem C6_counterexample :
    ((-3 : ℚ) ≤ -2 ∧ (0 : ℚ) < 1 / 2 ∧ (1 / 2 : ℚ) ≤ 1) ∧
    ¬ epsTraj (-3) (1 / 2) (-2) 1 ≤ epsTraj (-3) (1 / 2) (-2) 0 := by
  refine ⟨⟨by norm_num, by norm_num, by norm_num⟩, ?_⟩
  simp only [epsTraj, decayEpsilon]
  rw [max_def]
  norm_num

/-- Claim C6 (amended): if additionally `0 ≤ epsilon_min`, then across
every sequence of training steps — each applying
`epsilon = max(epsilon_min, epsilon * epsilon_decay)` — epsilon is
non-increasing and never drops below `epsilon_min`. -/
theorem C6_epsilon_monotone (eps_min eps_decay eps_start : ℚ)
    (h0 : 0 ≤ eps_min) (h1 : eps_min ≤ eps_start)
    (h2 : 0 < eps_decay) (h3 : eps_decay ≤ 1) (n : Nat) :
    epsTraj eps_min eps_decay eps_start (n + 1) ≤
      epsTraj eps_min eps_decay eps_start n ∧
    eps_min ≤ epsTraj eps_min eps_decay eps_start n := by
  have hlb := epsTraj_ge_min eps_min eps_decay eps_start h1 n
  refine ⟨?_, hlb⟩
  show decayEpsilon eps_min eps_decay (epsTraj eps_min eps_decay eps_start n) ≤ _
  unfold decayEpsilon
  apply max_le hlb
  calc epsTraj eps_min eps_decay eps_start n * eps_decay
      ≤ epsTraj eps_min eps_decay eps_start n * 1 :=
        mul_le_mul_of_nonneg_left h3 (le_trans h0 hlb)
    _ = epsTraj eps_min eps_decay eps_start n := mul_one _

/-- Witness for the amended C6 theorem. -/
theorem C6_epsilon_monotone_witness :
    ((0 : ℚ) ≤ 0 ∧ (0 : ℚ) ≤ 1 ∧ (0 : ℚ) < 1 ∧ (1 : ℚ) ≤ 1) ∧
    (epsTraj 0 1 1 (0 + 1) ≤ epsTraj 0 1 1 0 ∧ (0 : ℚ) ≤ epsTraj 0 1 1 0) :=
  ⟨⟨le_refl 0, zero_le_one, zero_lt_one, le_refl 1⟩,
    C6_epsilon_monotone 0 1 1 (le_refl 0) zero_le_one zero_lt_one (le_refl 1) 0⟩

/-! ## Claim C7: target-network sync cadence -/

/-- The shared step counter counts completed training steps. -/
theorem runTraining_training_step {P : Type} (freq : Nat)
    (upd : Nat → String → P → P) (st : SyncState P) (n : Nat) :
    (runTraining freq upd st n).training_step = st.training_step + n := by
  induction n with
  | zero => rfl
  | succ k ih =>
      simp only [runTraining, trainNetStep, ih]
      omega

/-- Claim C7: immediately after each completed multiple of
`target_update_freq` training steps, every agent's target parameters
equal its online parameters (hard copy); after every other training step
the target parameters are exactly what they were before that step
(gradient updates touch only online parameters). -/
theorem C7_target_sync_cadence {P : Type} (freq : Nat) (hfreq : 0 < freq)
    (upd : Nat → String → P → P) (nets0 : List (String × AgentNets P)) (n : Nat) :
    (0 < n → n % freq = 0 →
      ∀ p ∈ (runTraining freq upd ⟨nets0, 0⟩ n).nets, p.2.target = p.2.online) ∧
    ((n + 1) % freq ≠ 0 →
      (runTraining freq upd ⟨nets0, 0⟩ (n + 1)).nets.map (fun p => p.2.target) =
        (runTraining freq upd ⟨nets0, 0⟩ n).nets.map (fun p => p.2.target)) := by
  constructor
  · intro hn hmod
    obtain ⟨m, rfl⟩ : ∃ m, n = m + 1 := ⟨n - 1, by omega⟩
    intro p hp
    have hts : (runTraining freq upd ⟨nets0, 0⟩ m).training_step = m := by
      simpa using runTraining_training_step freq upd ⟨nets0, 0⟩ m
    simp only [runTraining, trainNetStep, hts] at hp
    rw [if_pos hmod] at hp
    simp only [List.mem_map] at hp
    obtain ⟨q, hq, rfl⟩ := hp
    rfl
  · intro hmod
    have hts : (runTraining freq upd ⟨nets0, 0⟩ n).training_step = n := by
      simpa using runTraining_training_step freq upd ⟨nets0, 0⟩ n
    conv_lhs => rw [runTraining]
    simp only [trainNetStep, hts]
    rw [if_neg hmod]
    simp [List.map_map, Function.comp_def]

/-- The witness agents for C7: two agents with distinct `Nat` parameter
blobs. -/
def netsC7 : List (String × AgentNets Nat) :=
  [("J1_center", ⟨0, 0⟩), ("J2_center", ⟨5, 5⟩)]

/-- The witness gradient-update oracle for C7. -/
def updC7 : Nat → String → Nat → Nat := fun t _ x => x + t

/-- Witness for C7: two agents, `freq = 2`, examined after step 2 (sync
point) and step 3 (no sync). -/
theorem C7_target_sync_cadence_witness :
    0 < 2 ∧
    ((0 < 2 → 2 % 2 = 0 →
        ∀ p ∈ (runTraining 2 updC7 ⟨netsC7, 0⟩ 2).nets, p.2.target = p.2.online) ∧
      ((2 + 1) % 2 ≠ 0 →
        (runTraining 2 updC7 ⟨netsC7, 0⟩ (2 + 1)).nets.map (fun p => p.2.target) =
          (runTraining 2 updC7 ⟨netsC7, 0⟩ 2).nets.map (fun p => p.2.target))) :=
  ⟨by decide, C7_target_sync_cadence 2 (by decide) updC7 netsC7 2⟩


/-! ## Claim C8: enhanced-observation length invariant -/

/-- Claim C8: for every base observation and every mailbox content
(empty, messages without a `queue` field, or more neighbor data than
fits), the enhanced observation is exactly 10 entries longer than the
base observation: the neighbor block is zero-padded or truncated to
exactly 10 values. -/
theorem C8_enhanced_observation_length (base_state : List ℚ) (comm : CommState) :
    (MultiAgentSystem.get_enhanced_state base_state comm).1.length =
      base_state.length + 10 := by
  simp only [MultiAgentSystem.get_enhanced_state, List.length_append,
    List.length_take, List.length_replicate]
  omega

/-! ## Claim C9: mailbox overwrite semantics -/

/-- The number of mailbox entries stored under key `k`. -/
def countKey (d : List (String × β)) (k : String) : Nat :=
  match d with
  | [] => 0
  | p :: rest => (if p.1 = k then 1 else 0) + countKey rest k

/-- Writing `k` into a mailbox that held at most one entry for `k` leaves
exactly one entry for `k`. -/
theorem countKey_dictInsert (d : List (String × β)) (k : String) (v : β)
    (h : countKey d k ≤ 1) : countKey (dictInsert d k v) k = 1 := by
  induction d with
  | nil => simp [dictInsert, countKey]
  | cons a d ih =>
      by_cases hk : a.1 = k
      · simp [countKey, dictInsert, hk] at h ⊢
        omega
      · simp [countKey, dictInsert, hk] at h ⊢
        exact ih h

/-- The value stored under `k` after writing `k` is the newly written
one. -/
theorem lookup_dictInsert (d : List (String × β)) (k : String) (v : β) :
    List.lookup k (dictInsert d k v) = some v := by
  induction d with
  | nil => simp [dictInsert, List.lookup]
  | cons a d ih =>
      by_cases hk : a.1 = k
      · simp [dictInsert, hk, List.lookup]
      · have hne : (k == a.1) = false := by
          simp only [beq_eq_false_iff_ne]
          exact fun e => hk e.symm
        simp [dictInsert, hk, List.lookup, hne, ih]

/-- Claim C9: if a sender delivers two messages to a receiver before the
receiver drains (a mailbox that, as a dict, holds at most one prior entry
for that sender), the next `drainMessages` returns exactly one entry for
that sender carrying the second message's payload, and draining clears
the mailbox so an immediate second drain returns nothing. -/
theorem C9_mailbox_overwrite (c : CommState) (m1 m2 : Message)
    (hs : m2.sender = m1.sender)
    (hinv : countKey c.received_messages m1.sender ≤ 1) :
    countKey (AgentCommunication.get_neighbor_messages
        (AgentCommunication.receiveMessage
          (AgentCommunication.receiveMessage c m1) m2)).1 m1.sender = 1 ∧
    List.lookup m1.sender (AgentCommunication.get_neighbor_messages
        (AgentCommunication.receiveMessage
          (AgentCommunication.receiveMessage c m1) m2)).1 =
      some ⟨m2.data, m2.timestamp, m2.type.getD "unknown"⟩ ∧
    (AgentCommunication.get_neighbor_messages
        (AgentCommunication.receiveMessage
          (AgentCommunication.receiveMessage c m1) m2)).2.received_messages = [] ∧
    (AgentCommunication.get_neighbor_messages
        (AgentCommunication.get_neighbor_messages
          (AgentCommunication.receiveMessage
            (AgentCommunication.receiveMessage c m1) m2)).2).1 = [] := by
  refine ⟨?_, ?_, rfl, rfl⟩
  · show countKey (dictInsert (dictInsert c.received_messages m1.sender _)
      m2.sender _) m1.sender = 1
    rw [hs]
    exact countKey_dictInsert _ _ _ (le_of_eq (countKey_dictInsert _ _ _ hinv))
  · show List.lookup m1.sender
      (dictInsert (dictInsert c.received_messages m1.sender _) m2.sender _) = _
    rw [hs]
    exact lookup_dictInsert _ _ _

/-- The first witness message for C9. -/
def m1C9 : Message :=
  AgentCommunication.send_state "J2_center" 0 { queue := some [1, 2, 3, 4] }

/-- The second (overwriting) witness message for C9. -/
def m2C9 : Message :=
  AgentCommunication.send_state "J2_center" 1 { queue := some [5, 6, 7, 8] }

/-- The witness receiver endpoint for C9: a freshly constructed
`J1_center` endpoint with an empty mailbox. -/
def commC9 : CommState := AgentCommunication.construct "J1_center" ["J2_center"]

/-- Witness for C9 at a concrete endpoint and two concrete messages. -/
theorem C9_mailbox_overwrite_witness :
    (m2C9.sender = m1C9.sender ∧ countKey commC9.received_messages m1C9.sender ≤ 1) ∧
    (countKey (AgentCommunication.get_neighbor_messages
        (AgentCommunication.receiveMessage
          (AgentCommunication.receiveMessage commC9 m1C9) m2C9)).1 m1C9.sender = 1 ∧
      List.lookup m1C9.sender (AgentCommunication.get_neighbor_messages
          (AgentCommunication.receiveMessage
            (AgentCommunication.receiveMessage commC9 m1C9) m2C9)).1 =
        some ⟨m2C9.data, m2C9.timestamp, m2C9.type.getD "unknown"⟩ ∧
      (AgentCommunication.get_neighbor_messages
          (AgentCommunication.receiveMessage
            (AgentCommunication.receiveMessage commC9 m1C9) m2C9)).2.received_messages = [] ∧
      (AgentCommunication.get_neighbor_messages
          (AgentCommunication.get_neighbor_messages
            (AgentCommunication.receiveMessage
              (AgentCommunication.receiveMessage commC9 m1C9) m2C9)).2).1 = []) :=
  ⟨⟨rfl, Nat.zero_le 1⟩, C9_mailbox_overwrite commC9 m1C9 m2C9 rfl (Nat.zero_le 1)⟩

/-! ## Claim C10: trainStep below batch_size is a safe no-op -/

/-- Claim C10: whenever the centralized buffer holds fewer than
`batch_size` transitions, `train_step` returns the `(0, 0)` sentinel
without raising, and the entire system state — every agent's parameters,
epsilon, and the training-step counter — is left untouched. -/
theorem C10_insufficient_buffer_sentinel {P O : Type} (torch : TorchOracle P O)
    (sys : MultiAgentSystemState P O) (sampleIndices : List Nat)
    (batch_size : Nat)
    (h : CentralizedBuffer.len sys.central_buffer < batch_size) :
    MultiAgentSystem.train_step torch sys sampleIndices batch_size =
      Except.ok ((0, 0), sys) := by
  rw [MultiAgentSystem.train_step, if_pos h]
  rfl

/-- Witness for C10: the 40-transition scenario buffer with
`batch_size = 50`. -/
theorem C10_insufficient_buffer_sentinel_witness :
    CentralizedBuffer.len sysC2.central_buffer < 50 ∧
    MultiAgentSystem.train_step zeroTorch sysC2 [] 50 =
      Except.ok ((0, 0), sysC2) :=
  ⟨by decide, C10_insufficient_buffer_sentinel zeroTorch sysC2 [] 50 (by decide)⟩

end TrafficMarl
